import Mathlib

/-!
Verification of the `ghl-webhook` subscription-cancellation service.

The repository contains four near-duplicate variants of one Express
handler `POST /webhook/cancel-subscription`:

* `src/index.js` (v3.0.0): custom-field scan for a `cus_` value, optional
  cancellation gated by the request flag `cancelInStripe`, grace-period
  computation.
* `src/unnamed/part_000` (v4.0.0): same, but cancellation is unconditional.
* `src/unnamed/part_001` (v2.0.0): named-custom-field lookup, unconditional
  cancellation, no grace-period computation, early return when nothing was
  cancellable.
* `src/unnamed/part_002` (v1.0.0): CRM-linked variant (cancels in
  GoHighLevel), explicit-subscriptionId shortcut, order-listing fallback.

The handlers are embedded as pure functions over an environment record that
fixes the outcome of each outbound HTTP call (`UpResult`), and they return
both the HTTP response and the ordered list of outbound calls issued.
-/

namespace GhlWebhook

/-- Outcome of one outbound HTTP call: a payload, or a failure optionally
carrying the upstream HTTP response status (`none` models a network error
with no response object, as in `error.response === undefined`). -/
inductive UpResult (α : Type) where
  | ok : α → UpResult α
  | err : Option Nat → UpResult α
deriving DecidableEq

/-- A Stripe subscription as the handlers read it: only the inspected
fields. `current_period_end` is `none` when the field is absent or null. -/
structure Subscription where
  id : String
  status : String
  current_period_end : Option Int
deriving DecidableEq

/-- A GoHighLevel subscription as read by the CRM-linked variant
(part_002), which only inspects `id` and `status`. -/
structure GSub where
  id : String
  status : String
deriving DecidableEq

/-- An order returned by the GoHighLevel orders endpoint (part_002
fallback); `recurring` models `order.recurring === true`. -/
structure GhlOrder where
  id : String
  status : String
  recurring : Bool
deriving DecidableEq

/-- A GoHighLevel custom field. `value` is `none` when absent or not a
string (the code checks `typeof field.value === 'string'`). -/
structure CustomField where
  id : Option String
  key : Option String
  value : Option String
deriving DecidableEq

/-- A GoHighLevel contact. `stripeCustomerIdProp` models the property
access `contact["Stripe Customer Id"]` used as a fallback in part_001. -/
structure Contact where
  customFields : Option (List CustomField)
  stripeCustomerIdProp : Option String
deriving DecidableEq

/-- One element pushed onto the `results` array by a cancellation loop.
`success` is the outcome of the remote cancellation call; the message and
timestamp fields of the source objects are not modelled because no claim
mentions them. -/
structure Entry where
  subscriptionId : String
  status : String
  success : Bool
deriving DecidableEq

/-- An outbound call issued by a handler, recorded in issue order. -/
inductive Call where
  | getContact (contactId : String)
  | listStripeSubs (stripeCustomerId : String)
  | cancelStripeSub (subscriptionId : String)
  | listGhlSubs (customerId : String)
  | listGhlOrders (customerId : String)
  | cancelGhlSub (subscriptionId : String)
deriving DecidableEq

/-- The JSON responses of the handlers, restricted to the fields the
claims are about.

* `errorResp s m` models `res.status(s).json(\x7b success: false, error: m \x7d)`.
* `nothingToCancel` models the part_001 early return
  `res.status(200).json(\x7b success: true, message: "No active subscriptions
  to cancel", ... \x7d)` (that body carries no results array).
* `singleResp` models the part_002 explicit-subscriptionId return.
* `okResp` models the aggregate return; `accessDaysRemaining` and
  `accessEndDate` are the grace-period fields (the end date is kept as the
  epoch-second timestamp whose ISO-8601 rendering
  `new Date(pe * 1000).toISOString()` the response carries); the variants
  that compute no grace period store `0` and `none` there. -/
inductive Resp where
  | errorResp (httpStatus : Nat) (error : String)
  | nothingToCancel (httpStatus : Nat) (success : Bool) (total : Nat)
  | singleResp (httpStatus : Nat) (success : Bool) (subscriptionId : String)
  | okResp (httpStatus : Nat) (success : Bool) (results : List Entry)
      (accessDaysRemaining : Int) (accessEndDate : Option Int)
deriving DecidableEq

/-- The HTTP status of a response. -/
def Resp.httpStatus : Resp → Nat
  | Resp.errorResp s _ => s
  | Resp.nothingToCancel s _ _ => s
  | Resp.singleResp s _ _ => s
  | Resp.okResp s _ _ _ _ => s

/-- The `success` field of a response body. -/
def Resp.isSuccess : Resp → Bool
  | Resp.errorResp _ _ => false
  | Resp.nothingToCancel _ b _ => b
  | Resp.singleResp _ b _ => b
  | Resp.okResp _ b _ _ _ => b

/-- The request body, as destructured by the handlers. `customerId` and
`subscriptionId` are `none` when absent (or not strings). -/
structure WebhookReq where
  customerId : Option String
  subscriptionId : Option String
  cancelInStripe : Option Bool
deriving DecidableEq

/-- Environment of the Stripe-backed variants: the outcome of the contact
lookup, of the subscription listing, the per-subscription outcome of the
Stripe cancellation call, and the request-processing time
`Math.floor(Date.now() / 1000)`. -/
structure StripeEnv where
  contactResult : UpResult (Option Contact)
  subsResult : UpResult (List Subscription)
  cancelOk : String → Bool
  now : Int

/-- Environment of the CRM-linked variant (part_002). `subsPayload` and
`ordersPayload` carry `response.data.subscriptions` and
`response.data.orders`, which the code defaults to `[]` with `|| []`. -/
structure GhlEnv where
  contactResult : UpResult (Option Contact)
  subsPayload : UpResult (Option (List GSub))
  ordersPayload : UpResult (Option (List GhlOrder))
  cancelOk : String → Bool

/-- JS truthiness of an optional string (`!customerId` checks): missing or
empty is falsy. -/
def strTruthy : Option String → Bool
  | some v => v != ""
  | none => false

/-- JS truthiness of `sub.current_period_end`: present and nonzero. -/
def peTruthy : Option Int → Bool
  | some v => v != 0
  | none => false

/-- `Math.ceil(a / b)` on exact integer inputs, for a positive divisor. -/
def ceilDiv (a b : Int) : Int := -((-a).ediv b)

/-- The cancellable-status test of the Stripe-backed handlers
(src/index.js line 96, part_000 line 92, part_001 line 82). -/
def isActiveStatus (s : String) : Bool :=
  s == "active" || s == "trialing" || s == "past_due" || s == "unpaid" ||
    s == "incomplete"

/-- The status filter of the CRM-linked variant (part_002 line 77); note
that it omits `incomplete`. -/
def isCancellableGHL (s : String) : Bool :=
  s == "active" || s == "trialing" || s == "past_due" || s == "unpaid"

/-- `value.startsWith("cus_")`. (`String.startsWith` itself does not
reduce in the kernel, so the equivalent character-list test is used.) -/
def startsWithCus (v : String) : Bool := "cus_".data.isPrefixOf v.data

/-- The predicate of the custom-field scan in src/index.js lines 58-60:
`field.value && typeof field.value === "string" &&
field.value.startsWith("cus_")`. -/
def cusFieldMatch (f : CustomField) : Bool :=
  match f.value with
  | some v => v != "" && startsWithCus v
  | none => false

/-- Resolution of the Stripe customer id in src/index.js lines 55-62 and
part_000 lines 51-58: first custom field whose value is a string starting
with `cus_`. -/
def resolveStripeCustomerId (c : Contact) : Option String :=
  match c.customFields with
  | some l => (l.find? cusFieldMatch).bind (fun f => f.value)
  | none => none

/-- Modelled from the spec (§3 BillingCustomerRef): the first value in the
custom-attribute list that is a string starting with `cus_`. Used only to
compare the source resolution against the specification wording. -/
def firstCusValueSpec : List CustomField → Option String
  | [] => none
  | f :: r =>
    match f.value with
    | some v => if startsWithCus v then some v else firstCusValueSpec r
    | none => firstCusValueSpec r

/-- The find predicate of part_001 lines 50-51:
`field.id === "Stripe Customer Id" || field.key === "stripe_customer_id"`. -/
def namedFieldMatch (f : CustomField) : Bool :=
  f.id == some "Stripe Customer Id" || f.key == some "stripe_customer_id"

/-- JS `a || b` on possibly-undefined strings: the left operand unless it
is falsy. -/
def orFalsyStr (a b : Option String) : Option String :=
  match a with
  | some v => if v == "" then b else some v
  | none => b

/-- Resolution of the Stripe customer id in part_001 lines 50-52:
`contact.customFields?.find(...)?.value || contact["Stripe Customer Id"]`. -/
def resolveNamedField (c : Contact) : Option String :=
  orFalsyStr (((c.customFields.getD []).find? namedFieldMatch).bind (fun f => f.value))
    c.stripeCustomerIdProp

/-- One step of the grace-period loop (src/index.js lines 95-110, part_000
lines 91-106): a cancellable subscription with a truthy period end whose
`daysLeft` strictly exceeds the running maximum replaces both the running
maximum and the retained end date. -/
def graceStep (now : Int) (st : Int × Option Int) (sub : Subscription) :
    Int × Option Int :=
  if isActiveStatus sub.status && peTruthy sub.current_period_end then
    let pe := sub.current_period_end.getD 0
    let daysLeft := ceilDiv (pe - now) 86400
    if st.1 < daysLeft then (daysLeft, some pe) else st
  else st

/-- The grace-period loop, started from `accessDaysRemaining = 0`,
`accessEndDate = null`. First component: `accessDaysRemaining`; second:
the epoch timestamp rendered into `accessEndDate`. -/
def graceLoop (now : Int) (subs : List Subscription) : Int × Option Int :=
  subs.foldl (graceStep now) (0, none)

/-- The `daysLeft` values the source loop actually folds over: cancellable
status and truthy period end. -/
def graceVals (now : Int) (subs : List Subscription) : List Int :=
  (subs.filter fun s => isActiveStatus s.status && peTruthy s.current_period_end).map
    (fun s => ceilDiv (s.current_period_end.getD 0 - now) 86400)

/-- The value set named by claim C1: cancellable status and a defined
period-end timestamp. -/
def graceValsSpec (now : Int) (subs : List Subscription) : List Int :=
  (subs.filter fun s => isActiveStatus s.status && s.current_period_end.isSome).map
    (fun s => ceilDiv (s.current_period_end.getD 0 - now) 86400)

/-- The `results` entry pushed for one Stripe subscription
(src/index.js lines 132-136). -/
def mkEntry (ok : String → Bool) (s : Subscription) : Entry :=
  ⟨s.id, s.status, ok s.id⟩

/-- The Stripe cancellation loop shared by src/index.js lines 121-140,
part_000 lines 116-135 and part_001 lines 81-100: push an entry for every
subscription with a cancellable status, skip the rest. -/
def cancelLoop (ok : String → Bool) (subs : List Subscription) : List Entry :=
  subs.foldl
    (fun acc s => if isActiveStatus s.status then acc ++ [mkEntry ok s] else acc) []

/-- The `results` entry pushed for one GoHighLevel subscription
(part_002 lines 80-84). -/
def mkEntryGHL (ok : String → Bool) (s : GSub) : Entry :=
  ⟨s.id, s.status, ok s.id⟩

/-- The cancellation loop of the CRM-linked variant (part_002 lines
76-88), with its four-status filter. -/
def cancelLoopGHL (ok : String → Bool) (subs : List GSub) : List Entry :=
  subs.foldl
    (fun acc s => if isCancellableGHL s.status then acc ++ [mkEntryGHL ok s] else acc) []

def reqMissingMsg : String := "customerId is required in the request body"

def internalErrMsg : String := "Internal server error"

def contactMissingMsg : String := "Contact not found in GoHighLevel"

def cusMissingMsg : String :=
  "Stripe Customer ID not found in GoHighLevel contact. Please ensure a custom field contains a Stripe Customer ID (starts with cus_)."

def namedMissingMsg : String :=
  "Stripe Customer ID not found in GoHighLevel contact. Please ensure the \"Stripe Customer Id\" custom field is populated."

def noSubsStripeMsg : String := "No subscriptions found for this customer in Stripe"

def customerMissingMsg : String := "Customer not found in GoHighLevel"

def noSubsGhlMsg : String := "No subscriptions found for this customer"

/-- The src/index.js handler (lines 21-187). Returns the response and the
ordered outbound calls. `cancelInStripe` defaults to `false` when absent
(line 27); a thrown contact lookup or listing error is caught at the top
level and becomes HTTP 500 (lines 176-186). -/
def handlerIndex (env : StripeEnv) (req : WebhookReq) : Resp × List Call :=
  if !strTruthy req.customerId then
    (Resp.errorResp 400 reqMissingMsg, [])
  else
    let cid := req.customerId.getD ""
    match env.contactResult with
    | UpResult.err _ => (Resp.errorResp 500 internalErrMsg, [Call.getContact cid])
    | UpResult.ok none =>
        (Resp.errorResp 404 contactMissingMsg, [Call.getContact cid])
    | UpResult.ok (some contact) =>
      match resolveStripeCustomerId contact with
      | none => (Resp.errorResp 404 cusMissingMsg, [Call.getContact cid])
      | some scid =>
        match env.subsResult with
        | UpResult.err _ =>
            (Resp.errorResp 500 internalErrMsg,
              [Call.getContact cid, Call.listStripeSubs scid])
        | UpResult.ok subs =>
          if subs.isEmpty then
            (Resp.errorResp 404 noSubsStripeMsg,
              [Call.getContact cid, Call.listStripeSubs scid])
          else
            let g := graceLoop env.now subs
            let flag := req.cancelInStripe.getD false
            let results := if flag then cancelLoop env.cancelOk subs else []
            let allSuccessful := results.isEmpty || results.all (fun r => r.success)
            (Resp.okResp (if allSuccessful then 200 else 207) allSuccessful results
                (max 0 g.1) g.2,
              [Call.getContact cid, Call.listStripeSubs scid] ++
                (if flag then
                  (subs.filter (fun s => isActiveStatus s.status)).map
                    (fun s => Call.cancelStripeSub s.id)
                else []))

/-- The part_000 handler (lines 21-175): identical to src/index.js except
that cancellation is unconditional. -/
def handler000 (env : StripeEnv) (req : WebhookReq) : Resp × List Call :=
  if !strTruthy req.customerId then
    (Resp.errorResp 400 reqMissingMsg, [])
  else
    let cid := req.customerId.getD ""
    match env.contactResult with
    | UpResult.err _ => (Resp.errorResp 500 internalErrMsg, [Call.getContact cid])
    | UpResult.ok none =>
        (Resp.errorResp 404 contactMissingMsg, [Call.getContact cid])
    | UpResult.ok (some contact) =>
      match resolveStripeCustomerId contact with
      | none => (Resp.errorResp 404 cusMissingMsg, [Call.getContact cid])
      | some scid =>
        match env.subsResult with
        | UpResult.err _ =>
            (Resp.errorResp 500 internalErrMsg,
              [Call.getContact cid, Call.listStripeSubs scid])
        | UpResult.ok subs =>
          if subs.isEmpty then
            (Resp.errorResp 404 noSubsStripeMsg,
              [Call.getContact cid, Call.listStripeSubs scid])
          else
            let g := graceLoop env.now subs
            let results := cancelLoop env.cancelOk subs
            let allSuccessful := results.isEmpty || results.all (fun r => r.success)
            (Resp.okResp (if allSuccessful then 200 else 207) allSuccessful results
                (max 0 g.1) g.2,
              [Call.getContact cid, Call.listStripeSubs scid] ++
                (subs.filter (fun s => isActiveStatus s.status)).map
                  (fun s => Call.cancelStripeSub s.id))

/-- The part_001 handler (lines 20-140): named-field resolution, no grace
period, early 200 return when no subscription was cancellable (lines
102-109). -/
def handler001 (env : StripeEnv) (req : WebhookReq) : Resp × List Call :=
  if !strTruthy req.customerId then
    (Resp.errorResp 400 reqMissingMsg, [])
  else
    let cid := req.customerId.getD ""
    match env.contactResult with
    | UpResult.err _ => (Resp.errorResp 500 internalErrMsg, [Call.getContact cid])
    | UpResult.ok none =>
        (Resp.errorResp 404 contactMissingMsg, [Call.getContact cid])
    | UpResult.ok (some contact) =>
      if !strTruthy (resolveNamedField contact) then
        (Resp.errorResp 404 namedMissingMsg, [Call.getContact cid])
      else
        let scid := (resolveNamedField contact).getD ""
        match env.subsResult with
        | UpResult.err _ =>
            (Resp.errorResp 500 internalErrMsg,
              [Call.getContact cid, Call.listStripeSubs scid])
        | UpResult.ok subs =>
          if subs.isEmpty then
            (Resp.errorResp 404 noSubsStripeMsg,
              [Call.getContact cid, Call.listStripeSubs scid])
          else
            let results := cancelLoop env.cancelOk subs
            let calls := [Call.getContact cid, Call.listStripeSubs scid] ++
              (subs.filter (fun s => isActiveStatus s.status)).map
                (fun s => Call.cancelStripeSub s.id)
            if results.isEmpty then
              (Resp.nothingToCancel 200 true subs.length, calls)
            else
              let allSuccessful := results.all (fun r => r.success)
              (Resp.okResp (if allSuccessful then 200 else 207) allSuccessful
                results 0 none, calls)

/-- part_002 `verifyCustomer` (lines 123-144): truthiness of
`response.data.contact`; an upstream 404 yields `false`; any other error
is rethrown. -/
def verifyCustomer (env : GhlEnv) : UpResult Bool :=
  match env.contactResult with
  | UpResult.ok c => UpResult.ok c.isSome
  | UpResult.err (some 404) => UpResult.ok false
  | UpResult.err e => UpResult.err e

/-- part_002 `getSubscriptionsAlternative` (lines 184-209): recurring
orders, with every error swallowed into an empty list. -/
def getSubscriptionsAlternative (env : GhlEnv) : List GSub :=
  match env.ordersPayload with
  | UpResult.ok p =>
      ((p.getD []).filter (fun o => o.recurring)).map (fun o => ⟨o.id, o.status⟩)
  | UpResult.err _ => []

/-- part_002 `getSubscriptionsByCustomer` (lines 149-179): the listing
payload, falling back to `getSubscriptionsAlternative` exactly on an
upstream 404 and rethrowing every other error. -/
def getSubscriptionsByCustomer (env : GhlEnv) : UpResult (List GSub) :=
  match env.subsPayload with
  | UpResult.ok p => UpResult.ok (p.getD [])
  | UpResult.err (some 404) => UpResult.ok (getSubscriptionsAlternative env)
  | UpResult.err e => UpResult.err e

/-- The part_002 handler (lines 18-118): explicit-subscriptionId shortcut
(lines 36-46, status 200 or 500), customer verification, listing with
fallback, four-status cancellation loop, 200/207 aggregation. -/
def handlerGHL (env : GhlEnv) (req : WebhookReq) : Resp × List Call :=
  if !strTruthy req.customerId then
    (Resp.errorResp 400 reqMissingMsg, [])
  else
    let cid := req.customerId.getD ""
    if strTruthy req.subscriptionId then
      let sid := req.subscriptionId.getD ""
      let ok := env.cancelOk sid
      (Resp.singleResp (if ok then 200 else 500) ok sid, [Call.cancelGhlSub sid])
    else
      match verifyCustomer env with
      | UpResult.err _ => (Resp.errorResp 500 internalErrMsg, [Call.getContact cid])
      | UpResult.ok false =>
          (Resp.errorResp 404 customerMissingMsg, [Call.getContact cid])
      | UpResult.ok true =>
        let listCalls := [Call.getContact cid, Call.listGhlSubs cid] ++
          (match env.subsPayload with
           | UpResult.err (some 404) => [Call.listGhlOrders cid]
           | _ => [])
        match getSubscriptionsByCustomer env with
        | UpResult.err _ => (Resp.errorResp 500 internalErrMsg, listCalls)
        | UpResult.ok subs =>
          if subs.isEmpty then
            (Resp.errorResp 404 noSubsGhlMsg, listCalls)
          else
            let results := cancelLoopGHL env.cancelOk subs
            let allSuccessful := results.all (fun r => r.success)
            (Resp.okResp (if allSuccessful then 200 else 207) allSuccessful
                results 0 none,
              listCalls ++
                (subs.filter (fun s => isCancellableGHL s.status)).map
                  (fun s => Call.cancelGhlSub s.id))

/-- The aggregate-path invariant of claim C4 (amended): on the list paths,
`success` holds iff no attempted cancellation failed, with status 200/207;
the part_001 early return reports success with status 200; the error and
single-subscription responses are covered by their own clauses. -/
def aggOk : Resp → Prop
  | Resp.okResp s b rs _ _ =>
      b = (rs.isEmpty || rs.all (fun r => r.success)) ∧ s = if b then 200 else 207
  | Resp.nothingToCancel s b _ => b = true ∧ s = 200
  | _ => True

/-! Concrete inputs used by the witnesses and counterexamples below. -/

def subsC1 : List Subscription :=
  [⟨"s1", "active", some 172800⟩, ⟨"s2", "canceled", some 999999⟩,
    ⟨"s3", "active", none⟩]

def okC2 : String → Bool := fun _ => true

def subsC2 : List Subscription :=
  [⟨"s1", "active", some 100⟩, ⟨"s2", "canceled", none⟩]

def gsubsC2 : List GSub := [⟨"g1", "trialing"⟩, ⟨"g2", "ended"⟩]

def contactC3 : Contact := ⟨some [⟨none, none, some "cus_1"⟩], none⟩

def envC3 : StripeEnv :=
  ⟨UpResult.ok (some contactC3), UpResult.ok [⟨"s1", "active", some 100⟩],
    fun _ => true, 0⟩

def reqC3 : WebhookReq := ⟨some "c1", none, none⟩

def envC4 : GhlEnv :=
  ⟨UpResult.ok none, UpResult.ok none, UpResult.ok none, fun _ => false⟩

def reqC4 : WebhookReq := ⟨some "c1", some "sub1", none⟩

def envC4s : StripeEnv := ⟨UpResult.ok none, UpResult.ok [], fun _ => true, 0⟩

def envC4w : GhlEnv :=
  ⟨UpResult.ok none, UpResult.ok none, UpResult.ok none, fun _ => true⟩

def reqC4w : WebhookReq := ⟨some "c1", some "sub9", none⟩

def contactC5 : Contact :=
  ⟨some [⟨some "Stripe Customer Id", none, some "cus_9"⟩], none⟩

def subsC5 : List Subscription := [⟨"s1", "canceled", some 100⟩]

def envC5 : StripeEnv :=
  ⟨UpResult.ok (some contactC5), UpResult.ok subsC5, fun _ => true, 0⟩

def reqC5 : WebhookReq := ⟨some "c1", none, none⟩

def subsC6 : List Subscription :=
  [⟨"s1", "active", some 100⟩, ⟨"s2", "active", some 200⟩]

def contactC7 : Contact := ⟨some [⟨some "f1", none, some "foo"⟩], none⟩

def envC7 : StripeEnv :=
  ⟨UpResult.ok (some contactC7), UpResult.ok [], fun _ => true, 0⟩

def reqC7 : WebhookReq := ⟨some "c1", none, none⟩

def contactC7b : Contact :=
  ⟨some [⟨some "Stripe Customer Id", none, some "foo"⟩], none⟩

def envC7b : StripeEnv :=
  ⟨UpResult.ok (some contactC7b), UpResult.ok [⟨"s1", "active", some 100⟩],
    fun _ => true, 0⟩

def contactC7c : Contact :=
  ⟨some [⟨some "other_field", none, some "cus_55"⟩], none⟩

def envC7c : StripeEnv :=
  ⟨UpResult.ok (some contactC7c), UpResult.ok [⟨"s1", "active", some 100⟩],
    fun _ => true, 0⟩

def reqC8 : WebhookReq := ⟨none, none, none⟩

def envC8s : StripeEnv := ⟨UpResult.ok none, UpResult.ok [], fun _ => true, 0⟩

def envC8g : GhlEnv :=
  ⟨UpResult.ok none, UpResult.ok none, UpResult.ok none, fun _ => true⟩

def envC9 : GhlEnv :=
  ⟨UpResult.ok none, UpResult.ok none, UpResult.ok none, fun _ => false⟩

def reqC9 : WebhookReq := ⟨some "c1", some "subX", none⟩

def envC10 : GhlEnv :=
  ⟨UpResult.ok (some ⟨none, none⟩), UpResult.err (some 404), UpResult.err none,
    fun _ => true⟩

def reqC10 : WebhookReq := ⟨some "c1", none, none⟩

/-! Helper lemmas. -/

theorem ghl_status_subset (s : String) (h : isCancellableGHL s = true) :
    isActiveStatus s = true := by
  simp only [isCancellableGHL, isActiveStatus, Bool.or_eq_true, beq_iff_eq] at h ⊢
  tauto

theorem cancelLoop_foldl (ok : String → Bool) (subs : List Subscription) :
    ∀ acc : List Entry,
      subs.foldl
        (fun acc s => if isActiveStatus s.status then acc ++ [mkEntry ok s] else acc)
        acc
      = acc ++ (subs.filter fun s => isActiveStatus s.status).map (mkEntry ok) := by
  induction subs with
  | nil => intro acc; simp
  | cons s rest ih =>
    intro acc
    by_cases h : isActiveStatus s.status = true <;>
      simp [List.foldl_cons, h, ih, List.filter_cons]

theorem cancelLoop_eq (ok : String → Bool) (subs : List Subscription) :
    cancelLoop ok subs
      = (subs.filter fun s => isActiveStatus s.status).map (mkEntry ok) := by
  simpa using cancelLoop_foldl ok subs []

theorem cancelLoopGHL_foldl (ok : String → Bool) (subs : List GSub) :
    ∀ acc : List Entry,
      subs.foldl
        (fun acc s => if isCancellableGHL s.status then acc ++ [mkEntryGHL ok s] else acc)
        acc
      = acc ++ (subs.filter fun s => isCancellableGHL s.status).map (mkEntryGHL ok) := by
  induction subs with
  | nil => intro acc; simp
  | cons s rest ih =>
    intro acc
    by_cases h : isCancellableGHL s.status = true <;>
      simp [List.foldl_cons, h, ih, List.filter_cons]

theorem cancelLoopGHL_eq (ok : String → Bool) (subs : List GSub) :
    cancelLoopGHL ok subs
      = (subs.filter fun s => isCancellableGHL s.status).map (mkEntryGHL ok) := by
  simpa using cancelLoopGHL_foldl ok subs []

theorem graceStep_fst (now : Int) (st : Int × Option Int) (s : Subscription) :
    (graceStep now st s).1 =
      if isActiveStatus s.status && peTruthy s.current_period_end
      then max st.1 (ceilDiv (s.current_period_end.getD 0 - now) 86400)
      else st.1 := by
  unfold graceStep
  split
  · dsimp only
    split
    · next h => exact (max_eq_right h.le).symm
    · next h => exact (max_eq_left (by omega)).symm
  · rfl

theorem graceStep_skip (now : Int) (st : Int × Option Int) (s : Subscription)
    (h : (isActiveStatus s.status && peTruthy s.current_period_end) = false) :
    graceStep now st s = st := by
  simp [graceStep, h]

theorem graceStep_not_active (now : Int) (st : Int × Option Int) (s : Subscription)
    (h : isActiveStatus s.status = false) : graceStep now st s = st := by
  simp [graceStep, h]

theorem graceVals_cons (now : Int) (s : Subscription) (rest : List Subscription) :
    graceVals now (s :: rest) =
      if isActiveStatus s.status && peTruthy s.current_period_end
      then ceilDiv (s.current_period_end.getD 0 - now) 86400 :: graceVals now rest
      else graceVals now rest := by
  unfold graceVals
  rw [List.filter_cons]
  by_cases h : (isActiveStatus s.status && peTruthy s.current_period_end) = true <;>
    simp [h]

theorem graceValsSpec_cons (now : Int) (s : Subscription) (rest : List Subscription) :
    graceValsSpec now (s :: rest) =
      if isActiveStatus s.status && s.current_period_end.isSome
      then ceilDiv (s.current_period_end.getD 0 - now) 86400 :: graceValsSpec now rest
      else graceValsSpec now rest := by
  unfold graceValsSpec
  rw [List.filter_cons]
  by_cases h : (isActiveStatus s.status && s.current_period_end.isSome) = true <;>
    simp [h]

theorem graceLoop_foldl_fst (now : Int) (subs : List Subscription) :
    ∀ st : Int × Option Int,
      (subs.foldl (graceStep now) st).1 = (graceVals now subs).foldl max st.1 := by
  induction subs with
  | nil => intro st; simp [graceVals]
  | cons s rest ih =>
    intro st
    rw [List.foldl_cons, ih, graceVals_cons, graceStep_fst]
    by_cases h : (isActiveStatus s.status && peTruthy s.current_period_end) = true <;>
      simp [h]

theorem le_foldl_max (l : List Int) : ∀ a : Int, a ≤ l.foldl max a := by
  induction l with
  | nil => intro a; simp
  | cons x r ih =>
    intro a
    rw [List.foldl_cons]
    exact le_trans (le_max_left a x) (ih (max a x))

theorem ceilDiv_nonpos (a : Int) (h : a ≤ 0) : ceilDiv a 86400 ≤ 0 := by
  unfold ceilDiv
  have h2 : 0 ≤ (-a).ediv 86400 := Int.ediv_nonneg (by omega) (by omega)
  omega

theorem foldl_max_spec_eq (now : Int) (hnow : 0 ≤ now) (subs : List Subscription) :
    ∀ a : Int, 0 ≤ a →
      (graceVals now subs).foldl max a = (graceValsSpec now subs).foldl max a := by
  induction subs with
  | nil => intro a _; rfl
  | cons s rest ih =>
    intro a ha
    rw [graceVals_cons, graceValsSpec_cons]
    by_cases hact : isActiveStatus s.status = true
    · rcases hpe : s.current_period_end with _ | v
      · simp only [hpe, peTruthy, Option.isSome_none, Bool.and_false,
          if_neg (by simp : ¬ (false = true))]
        exact ih a ha
      · by_cases hv : v = 0
        · subst hv
          have hd : ceilDiv ((0:Int) - now) 86400 ≤ 0 := ceilDiv_nonpos _ (by omega)
          simp only [hpe, peTruthy, hact, Option.isSome_some, Option.getD_some,
            Bool.and_true, Bool.and_false, bne_self_eq_false, if_false, if_true,
            Bool.true_and, Bool.and_self, if_neg, List.foldl_cons]
          rw [max_eq_left (by omega)]
          exact ih a ha
        · have hvv : ((v : Int) != 0) = true := by simpa using hv
          simp only [hpe, peTruthy, hact, Option.isSome_some, Option.getD_some,
            hvv, Bool.and_true, Bool.true_and, if_true, List.foldl_cons]
          exact ih (max a (ceilDiv (v - now) 86400)) (le_trans ha (le_max_left _ _))
    · have hact' : isActiveStatus s.status = false := by
        simpa using hact
      simp only [hact', Bool.false_and, if_neg (by simp : ¬ (false = true))]
      exact ih a ha

theorem graceLoop_fst_spec (now : Int) (hnow : 0 ≤ now) (subs : List Subscription) :
    (graceLoop now subs).1 = (graceValsSpec now subs).foldl max 0 := by
  unfold graceLoop
  rw [graceLoop_foldl_fst]
  exact foldl_max_spec_eq now hnow subs 0 le_rfl

theorem graceLoop_no_future (now : Int) (subs : List Subscription)
    (h : ∀ s ∈ subs, isActiveStatus s.status = true →
      ∀ v, s.current_period_end = some v → v ≤ now) :
    graceLoop now subs = (0, none) := by
  induction subs with
  | nil => rfl
  | cons s rest ih =>
    have hstep : graceStep now (0, none) s = (0, none) := by
      by_cases hc : (isActiveStatus s.status && peTruthy s.current_period_end) = true
      · rcases hpe : s.current_period_end with _ | v
        · rw [hpe] at hc; simp [peTruthy] at hc
        · have hc' : isActiveStatus s.status = true ∧
              peTruthy s.current_period_end = true := by simpa using hc
          have hact : isActiveStatus s.status = true := hc'.1
          have hv : v ≤ now := h s (List.mem_cons_self s rest) hact v hpe
          have hd : ceilDiv (v - now) 86400 ≤ 0 := ceilDiv_nonpos _ (by omega)
          have hlt : ¬ ((0:Int) < ceilDiv (v - now) 86400) := by omega
          simp [graceStep, hc, hpe, hlt]
      · exact graceStep_skip now _ s (by simpa using hc)
    have ht : graceLoop now rest = (0, none) :=
      ih (fun t htm => h t (List.mem_cons_of_mem s htm))
    unfold graceLoop at ht ⊢
    rw [List.foldl_cons, hstep, ht]

theorem graceLoop_filter (now : Int) (subs : List Subscription) :
    ∀ st : Int × Option Int,
      (subs.filter (fun s => isActiveStatus s.status)).foldl (graceStep now) st
        = subs.foldl (graceStep now) st := by
  induction subs with
  | nil => intro st; rfl
  | cons s rest ih =>
    intro st
    rw [List.filter_cons]
    by_cases h : isActiveStatus s.status = true
    · rw [if_pos h, List.foldl_cons, List.foldl_cons]
      exact ih _
    · have h' : isActiveStatus s.status = false := by simpa using h
      rw [if_neg (by simp [h']), List.foldl_cons,
        graceStep_not_active now st s h']
      exact ih st

theorem graceLoop_endDate_inv (now : Int) (subs : List Subscription) :
    ∀ st : Int × Option Int, 0 ≤ st.1 →
      ∀ pe, (subs.foldl (graceStep now) st).2 = some pe →
        (st.2 = some pe ∧ (subs.foldl (graceStep now) st).1 = st.1)
        ∨ ∃ s ∈ subs, isActiveStatus s.status = true ∧
            s.current_period_end = some pe ∧
            ceilDiv (pe - now) 86400 = (subs.foldl (graceStep now) st).1 ∧
            0 < (subs.foldl (graceStep now) st).1 := by
  induction subs with
  | nil => intro st h0 pe hpe; exact Or.inl ⟨hpe, rfl⟩
  | cons s rest ih =>
    intro st h0 pe hpe
    rw [List.foldl_cons] at hpe ⊢
    have h0' : 0 ≤ (graceStep now st s).1 := by
      rw [graceStep_fst]
      split
      · exact le_trans h0 (le_max_left _ _)
      · exact h0
    rcases ih (graceStep now st s) h0' pe hpe with ⟨h1, h2⟩ | ⟨t, ht, h3⟩
    · by_cases hc : (isActiveStatus s.status && peTruthy s.current_period_end) = true
      · rcases hpe2 : s.current_period_end with _ | v
        · rw [hpe2] at hc; simp [peTruthy] at hc
        · have hc' : isActiveStatus s.status = true ∧
              peTruthy s.current_period_end = true := by simpa using hc
          by_cases hlt : st.1 < ceilDiv (v - now) 86400
          · have hstep : graceStep now st s = (ceilDiv (v - now) 86400, some v) := by
              unfold graceStep
              rw [if_pos hc, hpe2]
              simp only [Option.getD_some]
              rw [if_pos hlt]
            rw [hstep] at h1 h2 ⊢
            have hv : v = pe := by simpa using h1
            subst hv
            refine Or.inr ⟨s, List.mem_cons_self s rest, hc'.1, hpe2, ?_, ?_⟩
            · rw [h2]
            · rw [h2]; dsimp only; omega
          · have hstep : graceStep now st s = st := by
              unfold graceStep
              rw [if_pos hc, hpe2]
              simp only [Option.getD_some]
              rw [if_neg hlt]
            rw [hstep] at h1 h2 ⊢
            exact Or.inl ⟨h1, h2⟩
      · have hstep := graceStep_skip now st s (by simpa using hc)
        rw [hstep] at h1 h2 ⊢
        exact Or.inl ⟨h1, h2⟩
    · exact Or.inr ⟨t, List.mem_cons_of_mem s ht, h3⟩

/-! Claim theorems. -/

/-- C1: for every fetched subscription list and request-processing time
`now` (a nonnegative epoch, as produced by `Math.floor(Date.now() / 1000)`),
the response field `accessDaysRemaining` (`Math.max(0, ...)` of the loop
value) equals the maximum, over subscriptions whose status is cancellable
and whose period-end timestamp is defined, of
`ceil((periodEnd - now) / 86400)`, clamped to at least 0; and if no
cancellable subscription has a future period end, `accessDaysRemaining`
is 0 and the end-date field is absent (null). -/
theorem C1_accessDaysRemaining (now : Int) (hnow : 0 ≤ now)
    (subs : List Subscription) :
    max 0 (graceLoop now subs).1 = (graceValsSpec now subs).foldl max 0
    ∧ (graceLoop now subs).1 = (graceValsSpec now subs).foldl max 0
    ∧ ((∀ s ∈ subs, isActiveStatus s.status = true →
          ∀ v, s.current_period_end = some v → v ≤ now) →
        graceLoop now subs = (0, none)) := by
  have h1 := graceLoop_fst_spec now hnow subs
  refine ⟨?_, h1, graceLoop_no_future now subs⟩
  rw [h1]
  exact max_eq_right (le_foldl_max _ 0)

/-- Witness for C1 at a concrete input: `now = 86400` and a list with one
cancellable future subscription, one canceled one and one without a period
end. -/
theorem C1_accessDaysRemaining_witness :
    (0 ≤ (86400 : Int))
    ∧ (max 0 (graceLoop 86400 subsC1).1 = (graceValsSpec 86400 subsC1).foldl max 0
        ∧ (graceLoop 86400 subsC1).1 = (graceValsSpec 86400 subsC1).foldl max 0
        ∧ ((∀ s ∈ subsC1, isActiveStatus s.status = true →
              ∀ v, s.current_period_end = some v → v ≤ 86400) →
            graceLoop 86400 subsC1 = (0, none))) :=
  ⟨by decide, C1_accessDaysRemaining 86400 (by decide) subsC1⟩

/-- C2: in every variant, a subscription whose status is outside
\x7bactive, trialing, past_due, unpaid, incomplete\x7d receives no
cancellation call (erasing all such subscriptions leaves every
cancellation loop unchanged, and every results entry carries a cancellable
status — in part_002 because its four-status filter is a subset of the
five-status set) and contributes nothing to the grace-period loop. -/
theorem C2_noncancellable_skipped (ok : String → Bool) (now : Int)
    (subs : List Subscription) (gsubs : List GSub) :
    cancelLoop ok (subs.filter fun s => isActiveStatus s.status) = cancelLoop ok subs
    ∧ (∀ e ∈ cancelLoop ok subs, isActiveStatus e.status = true)
    ∧ cancelLoopGHL ok (gsubs.filter fun s => isActiveStatus s.status)
        = cancelLoopGHL ok gsubs
    ∧ (∀ e ∈ cancelLoopGHL ok gsubs, isActiveStatus e.status = true)
    ∧ graceLoop now (subs.filter fun s => isActiveStatus s.status)
        = graceLoop now subs := by
  refine ⟨?_, ?_, ?_, ?_, ?_⟩
  · rw [cancelLoop_eq, cancelLoop_eq, List.filter_filter]
    simp
  · intro e he
    rw [cancelLoop_eq] at he
    rcases List.mem_map.mp he with ⟨s, hs, rfl⟩
    exact (List.mem_filter.mp hs).2
  · rw [cancelLoopGHL_eq, cancelLoopGHL_eq, List.filter_filter]
    refine congrArg _ (List.filter_congr ?_)
    intro s _
    by_cases h : isCancellableGHL s.status = true
    · simp [h, ghl_status_subset _ h]
    · simp [Bool.eq_false_iff.mpr h]
  · intro e he
    rw [cancelLoopGHL_eq] at he
    rcases List.mem_map.mp he with ⟨s, hs, rfl⟩
    exact ghl_status_subset _ (List.mem_filter.mp hs).2
  · exact graceLoop_filter now subs (0, none)

/-- Witness for C2: the membership clauses instantiated at a concrete
results entry of a concrete run. -/
theorem C2_noncancellable_skipped_witness :
    (Entry.mk "s1" "active" true) ∈ cancelLoop okC2 subsC2
    ∧ isActiveStatus (Entry.mk "s1" "active" true).status = true :=
  ⟨by decide,
    (C2_noncancellable_skipped okC2 0 subsC2 gsubsC2).2.1
      (Entry.mk "s1" "active" true) (by decide)⟩

/-- C3 counterexample: src/index.js line 27 destructures
`cancelInStripe = false`, so a request omitting the flag runs in
calculate-only mode: with a cancellable subscription present, no
cancellation call is issued, contradicting the claimed default of true. -/
theorem C3_counterexample :
    reqC3.cancelInStripe = none
    ∧ isActiveStatus "active" = true
    ∧ (handlerIndex envC3 reqC3).2
        = [Call.getContact "c1", Call.listStripeSubs "cus_1"]
    ∧ ¬ (Call.cancelStripeSub "s1" ∈ (handlerIndex envC3 reqC3).2) := by
  decide

/-- C3 corrected: when the request omits `cancelInStripe`, the handler
treats it as false (calculate-only mode): the behavior equals that of an
explicit `cancelInStripe: false` request, and no cancellation call is
issued for any subscription. -/
theorem C3_amended_default_false (env : StripeEnv) (req : WebhookReq)
    (h : req.cancelInStripe = none) :
    handlerIndex env req
      = handlerIndex env { req with cancelInStripe := some false }
    ∧ ∀ sid, ¬ (Call.cancelStripeSub sid ∈ (handlerIndex env req).2) := by
  rcases req with ⟨cid, sid, flag⟩
  simp only at h
  subst h
  constructor
  · rfl
  · intro sidq
    unfold handlerIndex
    repeat' split
    all_goals simp

/-- Witness for C3 at the concrete counterexample input. -/
theorem C3_amended_default_false_witness :
    reqC3.cancelInStripe = none
    ∧ (handlerIndex envC3 reqC3
          = handlerIndex envC3 { reqC3 with cancelInStripe := some false }
        ∧ ∀ sid, ¬ (Call.cancelStripeSub sid ∈ (handlerIndex envC3 reqC3).2)) :=
  ⟨rfl, C3_amended_default_false envC3 reqC3 rfl⟩

theorem isEmpty_or_all (l : List Entry) (f : Entry → Bool) :
    (l.isEmpty || l.all f) = l.all f := by
  cases l <;> simp

/-- C4 counterexample: with an explicit subscriptionId whose cancellation
fails, part_002 returns HTTP 500, not 207, although exactly one attempted
cancellation failed. -/
theorem C4_counterexample :
    (handlerGHL envC4 reqC4).1 = Resp.singleResp 500 false "sub1"
    ∧ (handlerGHL envC4 reqC4).2 = [Call.cancelGhlSub "sub1"]
    ∧ envC4.cancelOk "sub1" = false
    ∧ (handlerGHL envC4 reqC4).1.httpStatus ≠ 207 := by
  decide

/-- C4 corrected: in all four variants the aggregate (list) paths satisfy
"success iff the attempted set is empty or every attempted cancellation
succeeded", with HTTP 200/207 accordingly (`aggOk`); but the part_002
explicit-subscriptionId path returns 200 on success and 500 — not 207 —
on failure. -/
theorem C4_amended_aggregation (envS : StripeEnv) (envG : GhlEnv)
    (req : WebhookReq) :
    aggOk (handlerIndex envS req).1
    ∧ aggOk (handler000 envS req).1
    ∧ aggOk (handler001 envS req).1
    ∧ aggOk (handlerGHL envG req).1
    ∧ (strTruthy req.customerId = true → strTruthy req.subscriptionId = true →
        (handlerGHL envG req).1
          = Resp.singleResp
              (if envG.cancelOk (req.subscriptionId.getD "") then 200 else 500)
              (envG.cancelOk (req.subscriptionId.getD ""))
              (req.subscriptionId.getD "")) := by
  refine ⟨?_, ?_, ?_, ?_, ?_⟩
  · unfold handlerIndex
    repeat' split
    all_goals simp [aggOk]
  · unfold handler000
    repeat' split
    all_goals simp [aggOk]
  · unfold handler001
    repeat' split
    all_goals simp [aggOk, isEmpty_or_all]
    all_goals (try (split_ifs <;> simp_all [aggOk]))
    all_goals
      (split
       · rename_i hex hall
         obtain ⟨x, hx, hfx⟩ := hex
         simp [hall x hx] at hfx
       · rfl)
  · unfold handlerGHL
    repeat' split
    all_goals simp [aggOk, isEmpty_or_all]
  · intro h1 h2
    simp [handlerGHL, h1, h2]

/-- Witness for C4: a successful explicit-subscriptionId request yields
the single-subscription response with status 200. -/
theorem C4_amended_aggregation_witness :
    strTruthy reqC4w.customerId = true
    ∧ strTruthy reqC4w.subscriptionId = true
    ∧ (handlerGHL envC4w reqC4w).1 = Resp.singleResp 200 true "sub9" := by
  refine ⟨by decide, by decide, ?_⟩
  have h := (C4_amended_aggregation envC4s envC4w reqC4w).2.2.2.2
    (by decide) (by decide)
  simpa [envC4w, reqC4w] using h

/-- C5 counterexample: a resolved customer with a non-empty listing whose
single subscription is `canceled` (not cancellable) yields HTTP 200 in
both cited variants, not 404. -/
theorem C5_counterexample :
    subsC5 ≠ []
    ∧ (∀ s ∈ subsC5, isActiveStatus s.status = false)
    ∧ (handler001 envC5 reqC5).1 = Resp.nothingToCancel 200 true 1
    ∧ (handlerIndex envC5 reqC5).1.httpStatus = 200
    ∧ (handler001 envC5 reqC5).1.httpStatus ≠ 404 := by
  decide

/-- C5 corrected: when the subscriber resolves and the listing is
non-empty but no subscription has a cancellable status, the handlers
respond 200 with success true (part_001 via its explicit early return,
src/index.js via vacuous aggregation); 404 is returned only when the
listing itself is empty. -/
theorem C5_amended_nothing_cancellable (env : StripeEnv) (req : WebhookReq)
    (c : Contact) (subs : List Subscription)
    (hreq : strTruthy req.customerId = true)
    (hc : env.contactResult = UpResult.ok (some c))
    (hr1 : strTruthy (resolveNamedField c) = true)
    (hr2 : (resolveStripeCustomerId c).isSome = true)
    (hs : env.subsResult = UpResult.ok subs)
    (hne : subs ≠ [])
    (hnc : ∀ s ∈ subs, isActiveStatus s.status = false) :
    (handler001 env req).1 = Resp.nothingToCancel 200 true subs.length
    ∧ (handlerIndex env req).1.httpStatus = 200
    ∧ (handlerIndex env req).1.isSuccess = true := by
  have hie : subs.isEmpty = false := by
    cases subs with
    | nil => exact absurd rfl hne
    | cons a l => rfl
  have hfil : (subs.filter fun s => isActiveStatus s.status) = [] := by
    rw [List.filter_eq_nil_iff]
    intro a ha
    simp [hnc a ha]
  have hcl : cancelLoop env.cancelOk subs = [] := by
    rw [cancelLoop_eq, hfil]
    rfl
  obtain ⟨v, hv⟩ : ∃ v, resolveStripeCustomerId c = some v :=
    Option.isSome_iff_exists.mp hr2
  refine ⟨?_, ?_, ?_⟩ <;>
    simp [handler001, handlerIndex, hreq, hc, hr1, hv, hs, hie, hcl,
      Resp.httpStatus, Resp.isSuccess]

/-- Witness for C5 (amended) at the concrete counterexample input. -/
theorem C5_amended_nothing_cancellable_witness :
    strTruthy reqC5.customerId = true
    ∧ subsC5 ≠ []
    ∧ ((handler001 envC5 reqC5).1 = Resp.nothingToCancel 200 true subsC5.length
        ∧ (handlerIndex envC5 reqC5).1.httpStatus = 200
        ∧ (handlerIndex envC5 reqC5).1.isSuccess = true) :=
  ⟨by decide, by decide,
    C5_amended_nothing_cancellable envC5 reqC5 contactC5 subsC5 (by decide) rfl
      (by decide) (by decide) rfl (by decide) (by decide)⟩

/-- C6 counterexample: two active subscriptions whose period ends fall in
the same ceiling day bucket; the loop keeps the end date of the first
(epoch 100), while the maximum period end among cancellable subscriptions
is 200 — so `accessEndDate` does not render the largest period-end
timestamp. -/
theorem C6_counterexample :
    (graceLoop 0 subsC6).2 = some 100
    ∧ ((subsC6.filter fun s => isActiveStatus s.status).map
        (fun s => s.current_period_end.getD 0)).foldl max 0 = 200
    ∧ (100 : Int) ≠ 200 := by
  decide

/-- C6 corrected: the reported end date is the period end of a cancellable
subscription whose `daysLeft` equals the reported (positive) maximum — the
first to attain it — which need not carry the maximum period-end timestamp
when several period ends fall in the same ceiling day bucket. -/
theorem C6_amended_endDate (now : Int) (subs : List Subscription) (pe : Int)
    (h : (graceLoop now subs).2 = some pe) :
    ∃ s ∈ subs, isActiveStatus s.status = true
      ∧ s.current_period_end = some pe
      ∧ ceilDiv (pe - now) 86400 = (graceLoop now subs).1
      ∧ 0 < (graceLoop now subs).1 := by
  rcases graceLoop_endDate_inv now subs (0, none) le_rfl pe h with ⟨h1, _⟩ | hex
  · exact absurd h1 (by simp)
  · exact hex

/-- Witness for C6 (amended) at the concrete counterexample input. -/
theorem C6_amended_endDate_witness :
    (graceLoop 0 subsC6).2 = some 100
    ∧ ∃ s ∈ subsC6, isActiveStatus s.status = true
        ∧ s.current_period_end = some 100
        ∧ ceilDiv (100 - 0) 86400 = (graceLoop 0 subsC6).1
        ∧ 0 < (graceLoop 0 subsC6).1 :=
  ⟨by decide, C6_amended_endDate 0 subsC6 100 (by decide)⟩

theorem find_cus_eq_spec (l : List CustomField) :
    ((l.find? cusFieldMatch).bind fun f => f.value) = firstCusValueSpec l := by
  induction l with
  | nil => rfl
  | cons f r ih =>
    rcases hv : f.value with _ | v
    · have hm : cusFieldMatch f = false := by simp [cusFieldMatch, hv]
      rw [List.find?_cons_of_neg _ (by simp [hm]), ih]
      simp [firstCusValueSpec, hv]
    · by_cases hs : startsWithCus v = true
      · have hvne : (v != "") = true := by
          rcases eq_or_ne v "" with rfl | hne
          · exact absurd hs (by decide)
          · simpa using hne
        have hm : cusFieldMatch f = true := by
          simp [cusFieldMatch, hv, hvne, hs]
        rw [List.find?_cons_of_pos _ hm]
        simp [firstCusValueSpec, hv, hs]
      · have hs' : startsWithCus v = false := by simpa using hs
        have hm : cusFieldMatch f = false := by simp [cusFieldMatch, hv, hs']
        rw [List.find?_cons_of_neg _ (by simp [hm]), ih]
        simp [firstCusValueSpec, hv, hs']

/-- C7 counterexample: part_001 (cited by the claim) resolves by field
name, not by `cus_` prefix. A contact whose only custom field is named
"Stripe Customer Id" with value "foo" has no `cus_`-prefixed value, yet
part_001 resolves "foo" and proceeds to HTTP 200 instead of the claimed
404; conversely a `cus_` value stored under another field name fails to
resolve there and yields the 404. -/
theorem C7_counterexample :
    firstCusValueSpec
        [CustomField.mk (some "Stripe Customer Id") none (some "foo")] = none
    ∧ resolveNamedField contactC7b = some "foo"
    ∧ (handler001 envC7b reqC7).1.httpStatus = 200
    ∧ (handler001 envC7b reqC7).1.httpStatus ≠ 404
    ∧ firstCusValueSpec
        [CustomField.mk (some "other_field") none (some "cus_55")]
        = some "cus_55"
    ∧ (handler001 envC7c reqC7).1 = Resp.errorResp 404 namedMissingMsg := by
  decide

/-- C7 corrected: in the prefix-scan variants (src/index.js lines 55-71;
part_000 is identical) the billing-customer identifier is resolved as the
first custom-field value that is a string starting with `cus_` (equal to
the specification-worded first-match function `firstCusValueSpec`), and
when the list contains no such value both respond 404 with the message
instructing the operator to populate the field. part_001 instead resolves
by field name (id "Stripe Customer Id" or key "stripe_customer_id", with
the contact-property fallback): its resolution 404 occurs exactly when
that named lookup is falsy, so a contact with no `cus_`-prefixed value
can resolve and proceed there. -/
theorem C7_amended_resolution (env : StripeEnv) (req : WebhookReq) (c : Contact)
    (l : List CustomField)
    (hreq : strTruthy req.customerId = true)
    (hc : env.contactResult = UpResult.ok (some c))
    (hcf : c.customFields = some l) :
    resolveStripeCustomerId c = firstCusValueSpec l
    ∧ (firstCusValueSpec l = none →
        (handlerIndex env req).1 = Resp.errorResp 404 cusMissingMsg
        ∧ (handler000 env req).1 = Resp.errorResp 404 cusMissingMsg)
    ∧ (strTruthy (resolveNamedField c) = true →
        (handler001 env req).1 ≠ Resp.errorResp 404 namedMissingMsg)
    ∧ (strTruthy (resolveNamedField c) = false →
        (handler001 env req).1 = Resp.errorResp 404 namedMissingMsg) := by
  have heq : resolveStripeCustomerId c = firstCusValueSpec l := by
    simp only [resolveStripeCustomerId, hcf]
    exact find_cus_eq_spec l
  refine ⟨heq, fun hn => ?_, fun hr => ?_, fun hr => ?_⟩
  · have hres : resolveStripeCustomerId c = none := heq.trans hn
    constructor <;> simp [handlerIndex, handler000, hreq, hc, hres]
  · simp only [handler001, hreq, hc]
    repeat' split
    all_goals
      simp_all [namedMissingMsg, internalErrMsg, noSubsStripeMsg,
        contactMissingMsg, reqMissingMsg]
  · simp [handler001, hreq, hc, hr]

/-- Witness for C7 (amended): a contact whose only custom field value does
not start with `cus_` (and matches no named field) fails both resolutions,
yielding the 404 of each variant. -/
theorem C7_amended_resolution_witness :
    strTruthy reqC7.customerId = true
    ∧ resolveStripeCustomerId contactC7
        = firstCusValueSpec [⟨some "f1", none, some "foo"⟩]
    ∧ firstCusValueSpec [⟨some "f1", none, some "foo"⟩] = none
    ∧ (handlerIndex envC7 reqC7).1 = Resp.errorResp 404 cusMissingMsg
    ∧ (handler000 envC7 reqC7).1 = Resp.errorResp 404 cusMissingMsg
    ∧ strTruthy (resolveNamedField contactC7) = false
    ∧ (handler001 envC7 reqC7).1 = Resp.errorResp 404 namedMissingMsg := by
  have h := C7_amended_resolution envC7 reqC7 contactC7
    [⟨some "f1", none, some "foo"⟩] (by decide) rfl rfl
  exact ⟨by decide, h.1, by decide, (h.2.1 (by decide)).1, (h.2.1 (by decide)).2,
    by decide, h.2.2.2 (by decide)⟩

/-- C8: for every request whose customerId is missing (or falsy), each of
the four handler variants returns HTTP 400 with `success: false` and the
validation message, and issues no outbound call. -/
theorem C8_missing_customerId (envS : StripeEnv) (envG : GhlEnv)
    (req : WebhookReq) (h : strTruthy req.customerId = false) :
    handlerIndex envS req = (Resp.errorResp 400 reqMissingMsg, [])
    ∧ handler000 envS req = (Resp.errorResp 400 reqMissingMsg, [])
    ∧ handler001 envS req = (Resp.errorResp 400 reqMissingMsg, [])
    ∧ handlerGHL envG req = (Resp.errorResp 400 reqMissingMsg, [])
    ∧ (Resp.errorResp 400 reqMissingMsg).isSuccess = false := by
  refine ⟨?_, ?_, ?_, ?_, rfl⟩ <;>
    simp [handlerIndex, handler000, handler001, handlerGHL, h]

/-- Witness for C8 at a request with no customerId. -/
theorem C8_missing_customerId_witness :
    strTruthy reqC8.customerId = false
    ∧ (handlerIndex envC8s reqC8 = (Resp.errorResp 400 reqMissingMsg, [])
        ∧ handler000 envC8s reqC8 = (Resp.errorResp 400 reqMissingMsg, [])
        ∧ handler001 envC8s reqC8 = (Resp.errorResp 400 reqMissingMsg, [])
        ∧ handlerGHL envC8g reqC8 = (Resp.errorResp 400 reqMissingMsg, [])
        ∧ (Resp.errorResp 400 reqMissingMsg).isSuccess = false) :=
  ⟨by decide, C8_missing_customerId envC8s envC8g reqC8 (by decide)⟩

/-- C9: in the CRM-linked variant, a request carrying a (truthy)
subscriptionId cancels exactly that one subscription — the only outbound
call is the single cancellation, with no customer verification and no
subscription enumeration — returning 200 if the cancellation succeeds and
500 if it fails. -/
theorem C9_single_subscription_shortcut (env : GhlEnv) (req : WebhookReq)
    (sid : String)
    (hcid : strTruthy req.customerId = true)
    (hsid : req.subscriptionId = some sid) (hne : sid ≠ "") :
    (handlerGHL env req).2 = [Call.cancelGhlSub sid]
    ∧ (handlerGHL env req).1
        = Resp.singleResp (if env.cancelOk sid then 200 else 500)
            (env.cancelOk sid) sid := by
  have ht2 : strTruthy (some sid) = true := by simp [strTruthy, hne]
  constructor <;> simp [handlerGHL, hcid, hsid, ht2]

/-- Witness for C9 at a concrete failing cancellation (status 500). -/
theorem C9_single_subscription_shortcut_witness :
    strTruthy reqC9.customerId = true
    ∧ reqC9.subscriptionId = some "subX"
    ∧ ((handlerGHL envC9 reqC9).2 = [Call.cancelGhlSub "subX"]
        ∧ (handlerGHL envC9 reqC9).1
            = Resp.singleResp (if envC9.cancelOk "subX" then 200 else 500)
                (envC9.cancelOk "subX") "subX") :=
  ⟨by decide, rfl,
    C9_single_subscription_shortcut envC9 reqC9 "subX" (by decide) rfl
      (by decide)⟩

/-- C10: in the CRM-linked variant, when the subscription listing fails
with upstream 404 the handler falls back to the recurring-orders listing,
and every failure of that fallback yields an empty list, so the request
terminates with HTTP 404 "No subscriptions found for this customer"
rather than 500. -/
theorem C10_listing_fallback (env : GhlEnv) (req : WebhookReq) (e : Option Nat)
    (hcid : strTruthy req.customerId = true)
    (hsid : strTruthy req.subscriptionId = false)
    (hv : verifyCustomer env = UpResult.ok true)
    (h404 : env.subsPayload = UpResult.err (some 404))
    (herr : env.ordersPayload = UpResult.err e) :
    getSubscriptionsAlternative env = []
    ∧ getSubscriptionsByCustomer env = UpResult.ok []
    ∧ (handlerGHL env req).1 = Resp.errorResp 404 noSubsGhlMsg
    ∧ (handlerGHL env req).2
        = [Call.getContact (req.customerId.getD ""),
            Call.listGhlSubs (req.customerId.getD ""),
            Call.listGhlOrders (req.customerId.getD "")]
    ∧ (handlerGHL env req).1.httpStatus ≠ 500 := by
  have h1 : getSubscriptionsAlternative env = [] := by
    simp [getSubscriptionsAlternative, herr]
  have h2 : getSubscriptionsByCustomer env = UpResult.ok [] := by
    simp [getSubscriptionsByCustomer, h404, h1]
  refine ⟨h1, h2, ?_, ?_, ?_⟩ <;>
    simp [handlerGHL, hcid, hsid, hv, h404, h2, Resp.httpStatus]

/-- Witness for C10 at a concrete environment whose listing fails with
404 and whose orders fallback fails with a network error. -/
theorem C10_listing_fallback_witness :
    strTruthy reqC10.customerId = true
    ∧ verifyCustomer envC10 = UpResult.ok true
    ∧ (getSubscriptionsAlternative envC10 = []
        ∧ getSubscriptionsByCustomer envC10 = UpResult.ok []
        ∧ (handlerGHL envC10 reqC10).1 = Resp.errorResp 404 noSubsGhlMsg
        ∧ (handlerGHL envC10 reqC10).2
            = [Call.getContact (reqC10.customerId.getD ""),
                Call.listGhlSubs (reqC10.customerId.getD ""),
                Call.listGhlOrders (reqC10.customerId.getD "")]
        ∧ (handlerGHL envC10 reqC10).1.httpStatus ≠ 500) :=
  ⟨by decide, by decide,
    C10_listing_fallback envC10 reqC10 none (by decide) (by decide) (by decide)
      rfl rfl⟩

end GhlWebhook
